import Mathlib

/-!
Verification of the compose-topology materializer of the AVR-VMC
repository (`start.py`) and its privilege-elevation helper
(`utils.py`), as a shallow embedding.

Python dicts of service definitions become association lists
`List (String × Service)`; the `warnings.warn` calls that record a
skipped module become a skip list `List (String × String)` (module
name, warning message); `sys.exit` and uncaught `KeyError` become an
`Except Abort` result; host probes (`os.path.*`, `shutil.which`,
`os.environ`, `os.name`) become an explicit `HostFacts` record.
-/

namespace AVR

/-- The four CLI actions (`ACTION_CHOCIES` in `start.py`). -/
inductive Action
  | run
  | build
  | pull
  | stop
deriving DecidableEq, Repr

/-- Host facts probed by `start.py` while materializing the topology:
file/dir/device existence, `shutil.which("nvpmodel")`, `os.name`,
display-forwarding environment variables and the local IP address
picked by `get_ip_address`.  `this_dir` stands for `THIS_DIR`, the
directory of the script, known only at run time. -/
structure HostFacts where
  this_dir : String
  argus_socket_isfile : Bool
  nvidia_lib_isdir : Bool
  fcc_serial_exists : Bool
  pcc_serial_exists : Bool
  sandbox_dir_isdir : Bool
  nvpmodel_conf_isfile : Bool
  nvpmodel_source : Option String
  os_posix : Bool
  env_DISPLAY : Option String
  env_WAYLAND_DISPLAY : Option String
  env_XDG_RUNTIME_DIR : Option String
  env_PULSE_SERVER : Option String
  ip_address : String
deriving DecidableEq, Repr

/-- A docker-compose service descriptor as built by `start.py`; the
dynamic dict keys of the Python code become optional fields, absent
keys are the defaults.  Numeric environment values are rendered to
their decimal strings. -/
structure Service where
  depends_on : List String := []
  build : Option String := none
  image : Option String := none
  restart : Option String := none
  environment : List (String × String) := []
  volumes : List String := []
  devices : List String := []
  ports : List String := []
  command : Option String := none
  privileged : Bool := false
  tty : Bool := false
  stdin_open : Bool := false
deriving DecidableEq, Repr

/-- Abnormal termination inside materialization: `sys.exit(code)`, or an
uncaught `KeyError` from `os.environ[key]`. -/
inductive Abort
  | exitCode (code : Nat)
  | keyError (key : String)
deriving DecidableEq, Repr

-- Constants of `start.py`

def DOCKER_PROJECT_NAME : String := "avr"

def IMAGE_BASE : String := "ghcr.io/bellflight/avr/"

/-- `MODULES_DIR = os.path.join(THIS_DIR, "modules")`. -/
def MODULES_DIR (facts : HostFacts) : String := facts.this_dir ++ "/modules"

def MQTT_HOST : String := "mqtt"

def MQTT_PORT : Nat := 18830

def FCC_SERIAL_DEVICE : String := "/dev/ttyTHS1"

def FCC_SERIAL_BAUD_RATE : Nat := 500000

def MAVLINK_TCP_1 : Nat := 5760

def MAVLINK_UDP_1 : Nat := 14541

def MAVLINK_UDP_2 : Nat := 14542

def PCC_SERIAL_DEVICE : String := "/dev/ttyACM0"

def PCC_SERIAL_BAUD_RATE : Nat := 115200

def PX4_HOME_LAT : String := "32.808549"

def PX4_HOME_LON : String := "-97.156345"

def PX4_HOME_ALT : String := "161.5"

/-- Result of one service-builder function: the entries it adds to the
compose dict, and the skip records (module name, warning text) it emits. -/
abbrev BuildStep := List (String × Service) × List (String × String)

/-- The argus socket path probed by `apriltag_service`. -/
def argus_socket : String := "/tmp/argus_socket"

/-- Warning emitted when apriltag is skipped under `run`. -/
def apriltag_run_warning : String :=
  s!"Argus socket {argus_socket} does not exist, cannot run Apriltag, skipping"

/-- Warning emitted when apriltag is skipped under `build`. -/
def apriltag_build_warning : String :=
  "Nvidia libraries do not exist, cannot build Apriltag, skipping"

/-- Warning emitted when mavp2p is skipped under `run`. -/
def mavp2p_warning : String :=
  s!"FCC serial device {FCC_SERIAL_DEVICE} does not exist, cannot run mavp2p, skipping"

/-- Warning emitted when pcm is skipped under `run`. -/
def pcm_warning : String :=
  s!"PCC serial device {PCC_SERIAL_DEVICE} does not exist, cannot run pcm, skipping"

/-- Warning emitted when sandbox is skipped. -/
def sandbox_warning : String := "Sandbox directory does not exist, skipping"

/-- Warning emitted when status is skipped under `run`. -/
def status_warning : String := "nvpmodel could not be found, cannot run status, skipping"

/-- The descriptor built by `apriltag_service` (before gating). -/
def apriltag_data (facts : HostFacts) : Service :=
  { depends_on := ["mqtt"]
    build := some (MODULES_DIR facts ++ "/apriltag")
    restart := some "on-failure"
    environment := [("MQTT_HOST", MQTT_HOST), ("MQTT_PORT", toString MQTT_PORT)]
    volumes := [ argus_socket ++ ":" ++ argus_socket] }

/-- `apriltag_service`: skipped when the argus socket is missing under
`run`, or the nvidia library dir is missing under `build`. -/
def apriltag_service (action : Action) (facts : HostFacts) : BuildStep :=
  if ¬ facts.argus_socket_isfile ∧ action = .run then
    ([], [("apriltag", apriltag_run_warning)])
  else if ¬ facts.nvidia_lib_isdir ∧ action = .build then
    ([], [("apriltag", apriltag_build_warning)])
  else
    ([("apriltag", apriltag_data facts)], [])

/-- The descriptor built by `fcm_service`. -/
def fcm_data (localBuild : Bool) (facts : HostFacts) : Service :=
  { depends_on := ["mqtt", "mavp2p"]
    restart := some "on-failure"
    environment := [("MQTT_HOST", MQTT_HOST), ("MQTT_PORT", toString MQTT_PORT)]
    build := if localBuild then some (MODULES_DIR facts ++ "/fcm") else none
    image := if localBuild then none else some (IMAGE_BASE ++ "flightcontrol:latest") }

/-- `fcm_service`: never gated. -/
def fcm_service (localBuild : Bool) (facts : HostFacts) : BuildStep :=
  ([("fcm", fcm_data localBuild facts)], [])

/-- The descriptor built by `fusion_service`; note the unconditional
dependency on `vio`. -/
def fusion_data (localBuild : Bool) (facts : HostFacts) : Service :=
  { depends_on := ["mqtt", "vio"]
    restart := some "on-failure"
    environment := [("MQTT_HOST", MQTT_HOST), ("MQTT_PORT", toString MQTT_PORT),
      ("PX4_HOME_LAT", PX4_HOME_LAT), ("PX4_HOME_LON", PX4_HOME_LON),
      ("PX4_HOME_ALT", PX4_HOME_ALT)]
    build := if localBuild then some (MODULES_DIR facts ++ "/fusion") else none
    image := if localBuild then none else some (IMAGE_BASE ++ "fusion:latest") }

/-- `fusion_service`: never gated. -/
def fusion_service (localBuild : Bool) (facts : HostFacts) : BuildStep :=
  ([("fusion", fusion_data localBuild facts)], [])

/-- The descriptor built by `mavp2p_service`: with `simulator` an extra
UDP endpoint and published port; without it a leading serial endpoint
and the serial device mount. -/
def mavp2p_data (simulator localBuild : Bool) (facts : HostFacts) : Service :=
  let command0 :=
    s!"tcps:0.0.0.0:{MAVLINK_TCP_1} udpc:fcm:{MAVLINK_UDP_1} udpc:fcm:{MAVLINK_UDP_2}"
  let ports0 := [s!"{MAVLINK_TCP_1}:{MAVLINK_TCP_1}/tcp"]
  let command1 := if simulator then command0 ++ " udps:0.0.0.0:14540" else command0
  let ports1 := if simulator then ports0 ++ ["14540:14540/udp"] else ports0
  let command2 :=
    if ¬ simulator then s!"serial:{FCC_SERIAL_DEVICE}:{FCC_SERIAL_BAUD_RATE} " ++ command1
    else command1
  let devices1 := if ¬ simulator then [s!"{FCC_SERIAL_DEVICE}:{FCC_SERIAL_DEVICE}"] else []
  { restart := some "on-failure"
    ports := ports1
    command := some command2
    environment := [("MAVLINK_UDP_1", toString MAVLINK_UDP_1),
      ("MAVLINK_UDP_2", toString MAVLINK_UDP_2)]
    devices := devices1
    build := if localBuild then some (MODULES_DIR facts ++ "/mavp2p") else none
    image := if localBuild then none else some (IMAGE_BASE ++ "mavp2p:latest") }

/-- `mavp2p_service`: skipped when not in simulator mode, the FCC serial
device is missing and the action is `run`. -/
def mavp2p_service (action : Action) (localBuild simulator : Bool)
    (facts : HostFacts) : BuildStep :=
  if ¬ simulator ∧ ¬ facts.fcc_serial_exists ∧ action = .run then
    ([], [("mavp2p", mavp2p_warning)])
  else
    ([("mavp2p", mavp2p_data simulator localBuild facts)], [])

/-- The descriptor built by `mqtt_service`; its environment holds only
`MQTT_PORT`. -/
def mqtt_data (localBuild : Bool) (facts : HostFacts) : Service :=
  { ports := [s!"{MQTT_PORT}:{MQTT_PORT}/tcp"]
    environment := [("MQTT_PORT", toString MQTT_PORT)]
    restart := some "on-failure"
    build := if localBuild then some (MODULES_DIR facts ++ "/mqtt") else none
    image := if localBuild then none else some (IMAGE_BASE ++ "mosquitto:latest") }

/-- `mqtt_service`: never gated. -/
def mqtt_service (localBuild : Bool) (facts : HostFacts) : BuildStep :=
  ([("mqtt", mqtt_data localBuild facts)], [])

/-- The descriptor built by `pcm_service`. -/
def pcm_data (localBuild : Bool) (facts : HostFacts) : Service :=
  { depends_on := ["mqtt"]
    restart := some "on-failure"
    devices := [s!"{PCC_SERIAL_DEVICE}:{PCC_SERIAL_DEVICE}"]
    environment := [("MQTT_HOST", MQTT_HOST), ("MQTT_PORT", toString MQTT_PORT),
      ("PCC_SERIAL_DEVICE", PCC_SERIAL_DEVICE),
      ("PCC_SERIAL_BAUD_RATE", toString PCC_SERIAL_BAUD_RATE)]
    build := if localBuild then some (MODULES_DIR facts ++ "/pcm") else none
    image := if localBuild then none else some (IMAGE_BASE ++ "peripheralcontrol:latest") }

/-- `pcm_service`: skipped when the PCC serial device is missing and the
action is `run`. -/
def pcm_service (action : Action) (localBuild : Bool) (facts : HostFacts) : BuildStep :=
  if ¬ facts.pcc_serial_exists ∧ action = .run then
    ([], [("pcm", pcm_warning)])
  else
    ([("pcm", pcm_data localBuild facts)], [])

/-- The descriptor built by `sandbox_service`; always a local build. -/
def sandbox_data (facts : HostFacts) : Service :=
  { depends_on := ["mqtt"]
    build := some (MODULES_DIR facts ++ "/sandbox")
    restart := some "on-failure"
    environment := [("MQTT_HOST", MQTT_HOST), ("MQTT_PORT", toString MQTT_PORT)] }

/-- `sandbox_service`: skipped under every action when the sandbox
source directory is missing. -/
def sandbox_service (facts : HostFacts) : BuildStep :=
  if ¬ facts.sandbox_dir_isdir then
    ([], [("sandbox", sandbox_warning)])
  else
    ([("sandbox", sandbox_data facts)], [])

/-- The descriptor built by `status_service`; when `shutil.which`
returned `None`, the Python f-string renders the volume source as the
literal string `None`. -/
def status_data (localBuild : Bool) (facts : HostFacts) : Service :=
  { depends_on := ["mqtt"]
    restart := some "on-failure"
    privileged := true
    environment := [("MQTT_HOST", MQTT_HOST), ("MQTT_PORT", toString MQTT_PORT)]
    volumes := ["/etc/nvpmodel.conf:/app/nvpmodel.conf",
      (match facts.nvpmodel_source with
        | some p => p
        | none => "None") ++ ":/app/nvpmodel"]
    build := if localBuild then some (MODULES_DIR facts ++ "/status") else none
    image := if localBuild then none else some (IMAGE_BASE ++ "status:latest") }

/-- `status_service`: skipped when `nvpmodel` or its configuration file
cannot be found and the action is `run`. -/
def status_service (action : Action) (localBuild : Bool) (facts : HostFacts) : BuildStep :=
  if (¬ facts.nvpmodel_conf_isfile ∨ facts.nvpmodel_source = none) ∧ action = .run then
    ([], [("status", status_warning)])
  else
    ([("status", status_data localBuild facts)], [])

/-- The descriptor built by `thermal_service`. -/
def thermal_data (localBuild : Bool) (facts : HostFacts) : Service :=
  { depends_on := ["mqtt"]
    restart := some "on-failure"
    privileged := true
    environment := [("MQTT_HOST", MQTT_HOST), ("MQTT_PORT", toString MQTT_PORT)]
    build := if localBuild then some (MODULES_DIR facts ++ "/thermal") else none
    image := if localBuild then none else some (IMAGE_BASE ++ "thermal:latest") }

/-- `thermal_service`: never gated. -/
def thermal_service (localBuild : Bool) (facts : HostFacts) : BuildStep :=
  ([("thermal", thermal_data localBuild facts)], [])

/-- The descriptor built by `vio_service`. -/
def vio_data (localBuild : Bool) (facts : HostFacts) : Service :=
  { depends_on := ["mqtt"]
    restart := some "on-failure"
    privileged := true
    environment := [("MQTT_HOST", MQTT_HOST), ("MQTT_PORT", toString MQTT_PORT)]
    volumes := [ MODULES_DIR facts ++ "/vio/settings" ++ ":/usr/local/zed/settings/"]
    build := if localBuild then some (MODULES_DIR facts ++ "/vio") else none
    image := if localBuild then none else some (IMAGE_BASE ++ "visual:latest") }

/-- `vio_service`: never gated. -/
def vio_service (localBuild : Bool) (facts : HostFacts) : BuildStep :=
  ([("vio", vio_data localBuild facts)], [])

/-- `simulator_service`: on a non-posix host it prints and calls
`sys.exit(1)`; otherwise it reads four environment variables in dict
order — the first absent one raises `KeyError` — and builds the
descriptor. -/
def simulator_service (localBuild : Bool) (facts : HostFacts) : Except Abort Service :=
  if ¬ facts.os_posix then
    .error (.exitCode 1)
  else
    match facts.env_DISPLAY, facts.env_WAYLAND_DISPLAY,
        facts.env_XDG_RUNTIME_DIR, facts.env_PULSE_SERVER with
    | none, _, _, _ => .error (.keyError "DISPLAY")
    | some _, none, _, _ => .error (.keyError "WAYLAND_DISPLAY")
    | some _, some _, none, _ => .error (.keyError "XDG_RUNTIME_DIR")
    | some _, some _, some _, none => .error (.keyError "PULSE_SERVER")
    | some display, some wayland, some xdg, some pulse =>
      .ok
        { tty := true
          stdin_open := true
          environment := [("DISPLAY", display), ("WAYLAND_DISPLAY", wayland),
            ("XDG_RUNTIME_DIR", xdg), ("PULSE_SERVER", pulse),
            ("PX4_HOME_LAT", PX4_HOME_LAT), ("PX4_HOME_LON", PX4_HOME_LON),
            ("PX4_HOME_ALT", PX4_HOME_ALT), ("DOCKER_HOST", facts.ip_address)]
          volumes := ["/tmp/.X11-unix:/tmp/.X11-unix", "/mnt/wslg:/mnt/wslg"]
          build := if localBuild then some (MODULES_DIR facts ++ "/simulator") else none
          image := if localBuild then none else some (IMAGE_BASE ++ "simulator:latest") }

/-- The compose-dict entries accumulated by `prepare_compose_file`
before the simulator block, in insertion order. -/
def base_services (action : Action) (modules : List String) (localBuild : Bool)
    (facts : HostFacts) : List (String × Service) :=
  let simulator := decide ("simulator" ∈ modules)
  (mqtt_service localBuild facts).1 ++
  (mavp2p_service action localBuild simulator facts).1 ++
  (if "apriltag" ∈ modules then (apriltag_service action facts).1 else []) ++
  (if "fcm" ∈ modules then (fcm_service localBuild facts).1 else []) ++
  (if "fusion" ∈ modules then (fusion_service localBuild facts).1 else []) ++
  (if "pcm" ∈ modules then (pcm_service action localBuild facts).1 else []) ++
  (if "sandbox" ∈ modules then (sandbox_service facts).1 else []) ++
  (if "status" ∈ modules then (status_service action localBuild facts).1 else []) ++
  (if "thermal" ∈ modules then (thermal_service localBuild facts).1 else []) ++
  (if "vio" ∈ modules then (vio_service localBuild facts).1 else [])

/-- The skip records emitted by `prepare_compose_file` before the
simulator block, in emission order. -/
def base_skips (action : Action) (modules : List String) (localBuild : Bool)
    (facts : HostFacts) : List (String × String) :=
  let simulator := decide ("simulator" ∈ modules)
  (mqtt_service localBuild facts).2 ++
  (mavp2p_service action localBuild simulator facts).2 ++
  (if "apriltag" ∈ modules then (apriltag_service action facts).2 else []) ++
  (if "fcm" ∈ modules then (fcm_service localBuild facts).2 else []) ++
  (if "fusion" ∈ modules then (fusion_service localBuild facts).2 else []) ++
  (if "pcm" ∈ modules then (pcm_service action localBuild facts).2 else []) ++
  (if "sandbox" ∈ modules then (sandbox_service facts).2 else []) ++
  (if "status" ∈ modules then (status_service action localBuild facts).2 else []) ++
  (if "thermal" ∈ modules then (thermal_service localBuild facts).2 else []) ++
  (if "vio" ∈ modules then (vio_service localBuild facts).2 else [])

/-- `prepare_compose_file`: runs the always-on builders, then the
requested gated builders, then — if `simulator` was requested — the
simulator builder, which may abort the whole process.  The result is
the service topology (in insertion order) and the skip records. -/
def prepare_compose_file (action : Action) (modules : List String) (localBuild : Bool)
    (facts : HostFacts) :
    Except Abort (List (String × Service) × List (String × String)) :=
  if "simulator" ∈ modules then
    match simulator_service localBuild facts with
    | .ok svc =>
        .ok (base_services action modules localBuild facts ++ [("simulator", svc)],
          base_skips action modules localBuild facts)
    | .error e => .error e
  else
    .ok (base_services action modules localBuild facts,
      base_skips action modules localBuild facts)

/-- The compose file path `os.path.join(THIS_DIR, "docker-compose.yml")`. -/
def compose_file (facts : HostFacts) : String := facts.this_dir ++ "/docker-compose.yml"

/-- The argument list built in `main` after the `docker compose` /
`docker-compose` tool prefix: the fixed project name and manifest path,
then the per-action verb, with the requested module names appended for
`build`, `pull` and `run` but not for `stop`.  (The trailing `else`
branch of the Python chain raises on an unknown action; `Action` is
exhaustive, so the last branch here is exactly `stop`.) -/
def main_cmd (action : Action) (modules : List String) (facts : HostFacts) : List String :=
  let cmd := ["--project-name", DOCKER_PROJECT_NAME, "--file", compose_file facts]
  if action = .build then cmd ++ ["build"] ++ modules
  else if action = .pull then cmd ++ ["pull"] ++ modules
  else if action = .run then cmd ++ ["up", "--remove-orphans", "--force-recreate"] ++ modules
  else cmd ++ ["down", "--remove-orphans", "--volumes"]

/-- Outcome of `subprocess.run(["sudo", ...])` inside `check_sudo`:
normal completion with a return code, a `PermissionError`, or a
`KeyboardInterrupt`. -/
inductive ElevationOutcome
  | completed (returncode : Int)
  | permissionError
  | keyboardInterrupt
deriving DecidableEq, Repr

/-- `utils.check_sudo`: `some code` when it calls `sys.exit(code)`,
`none` when it returns and the caller proceeds.  On win32 it returns
immediately; with effective uid 0 it falls through; otherwise it
re-launches under sudo and exits with the child's return code, exits 0
on `PermissionError`, and exits 1 on `KeyboardInterrupt`. -/
def check_sudo (win32 : Bool) (euid : Nat) (outcome : ElevationOutcome) : Option Int :=
  if win32 then none
  else if euid ≠ 0 then
    match outcome with
    | .completed rc => some rc
    | .permissionError => some 0
    | .keyboardInterrupt => some 1
  else none

/-- A fully-equipped posix host, used to instantiate theorems. -/
def factsFull : HostFacts :=
  { this_dir := "/opt/avr"
    argus_socket_isfile := true
    nvidia_lib_isdir := true
    fcc_serial_exists := true
    pcc_serial_exists := true
    sandbox_dir_isdir := true
    nvpmodel_conf_isfile := true
    nvpmodel_source := some "/usr/sbin/nvpmodel"
    os_posix := true
    env_DISPLAY := some ":0"
    env_WAYLAND_DISPLAY := some "wayland-0"
    env_XDG_RUNTIME_DIR := some "/run/user/1000"
    env_PULSE_SERVER := some "/mnt/wslg/PulseServer"
    ip_address := "192.168.1.10" }

/-- A bare posix host: no devices, sockets, libraries or tools. -/
def factsBare : HostFacts :=
  { this_dir := "/opt/avr"
    argus_socket_isfile := false
    nvidia_lib_isdir := false
    fcc_serial_exists := false
    pcc_serial_exists := false
    sandbox_dir_isdir := false
    nvpmodel_conf_isfile := false
    nvpmodel_source := none
    os_posix := true
    env_DISPLAY := some ":0"
    env_WAYLAND_DISPLAY := some "wayland-0"
    env_XDG_RUNTIME_DIR := some "/run/user/1000"
    env_PULSE_SERVER := some "/mnt/wslg/PulseServer"
    ip_address := "192.168.1.10" }

/-- A non-posix (Windows, outside WSL) host. -/
def factsWin : HostFacts :=
  { factsFull with os_posix := false }

/-- The module names known to `prepare_compose_file` / service builders. -/
def known_modules : List String :=
  ["mqtt", "mavp2p", "apriltag", "fcm", "fusion", "pcm", "sandbox", "status",
    "thermal", "vio", "simulator"]

end AVR

namespace AVR

/-! ### Characterization lemmas -/

/-- Membership in a conditionally included sublist. -/
theorem mem_if_nil {α : Type} {c : Prop} [Decidable c] {l : List α} {x : α} :
    x ∈ (if c then l else []) ↔ c ∧ x ∈ l := by
  split <;> simp_all

/-- Appending one name that differs from `x` does not change membership of `x`. -/
theorem mem_append_single_iff {m : List String} {u x : String} (h : x ≠ u) :
    x ∈ m ++ [u] ↔ x ∈ m := by
  simp [List.mem_append, h]

theorem mem_mqtt_entries {localBuild : Bool} {facts : HostFacts} {p : String × Service} :
    p ∈ (mqtt_service localBuild facts).1 ↔ p = ("mqtt", mqtt_data localBuild facts) := by
  simp [mqtt_service]

theorem mem_mavp2p_entries {action : Action} {localBuild simulator : Bool}
    {facts : HostFacts} {p : String × Service} :
    p ∈ (mavp2p_service action localBuild simulator facts).1 ↔
      ¬(simulator = false ∧ facts.fcc_serial_exists = false ∧ action = .run) ∧
        p = ("mavp2p", mavp2p_data simulator localBuild facts) := by
  unfold mavp2p_service
  split_ifs with h <;> simp_all

theorem mem_apriltag_entries {action : Action} {facts : HostFacts} {p : String × Service} :
    p ∈ (apriltag_service action facts).1 ↔
      ¬(facts.argus_socket_isfile = false ∧ action = .run) ∧
      ¬(facts.nvidia_lib_isdir = false ∧ action = .build) ∧
      p = ("apriltag", apriltag_data facts) := by
  unfold apriltag_service
  split_ifs with h1 h2 <;> simp_all

theorem mem_fcm_entries {localBuild : Bool} {facts : HostFacts} {p : String × Service} :
    p ∈ (fcm_service localBuild facts).1 ↔ p = ("fcm", fcm_data localBuild facts) := by
  simp [fcm_service]

theorem mem_fusion_entries {localBuild : Bool} {facts : HostFacts} {p : String × Service} :
    p ∈ (fusion_service localBuild facts).1 ↔
      p = ("fusion", fusion_data localBuild facts) := by
  simp [fusion_service]

theorem mem_pcm_entries {action : Action} {localBuild : Bool} {facts : HostFacts}
    {p : String × Service} :
    p ∈ (pcm_service action localBuild facts).1 ↔
      ¬(facts.pcc_serial_exists = false ∧ action = .run) ∧
        p = ("pcm", pcm_data localBuild facts) := by
  unfold pcm_service
  split_ifs with h <;> simp_all

theorem mem_sandbox_entries {facts : HostFacts} {p : String × Service} :
    p ∈ (sandbox_service facts).1 ↔
      facts.sandbox_dir_isdir = true ∧ p = ("sandbox", sandbox_data facts) := by
  unfold sandbox_service
  split_ifs with h <;> simp_all

theorem mem_status_entries {action : Action} {localBuild : Bool} {facts : HostFacts}
    {p : String × Service} :
    p ∈ (status_service action localBuild facts).1 ↔
      ¬((facts.nvpmodel_conf_isfile = false ∨ facts.nvpmodel_source = none) ∧
          action = .run) ∧
        p = ("status", status_data localBuild facts) := by
  unfold status_service
  split_ifs with h <;> simp_all

theorem mem_thermal_entries {localBuild : Bool} {facts : HostFacts} {p : String × Service} :
    p ∈ (thermal_service localBuild facts).1 ↔
      p = ("thermal", thermal_data localBuild facts) := by
  simp [thermal_service]

theorem mem_vio_entries {localBuild : Bool} {facts : HostFacts} {p : String × Service} :
    p ∈ (vio_service localBuild facts).1 ↔ p = ("vio", vio_data localBuild facts) := by
  simp [vio_service]

theorem mqtt_no_skips {localBuild : Bool} {facts : HostFacts} :
    (mqtt_service localBuild facts).2 = [] := rfl

theorem mem_mavp2p_skips {action : Action} {localBuild simulator : Bool}
    {facts : HostFacts} {q : String × String} :
    q ∈ (mavp2p_service action localBuild simulator facts).2 ↔
      simulator = false ∧ facts.fcc_serial_exists = false ∧ action = .run ∧
        q = ("mavp2p", mavp2p_warning) := by
  unfold mavp2p_service
  split_ifs with h <;> simp_all

theorem mem_apriltag_skips {action : Action} {facts : HostFacts} {q : String × String} :
    q ∈ (apriltag_service action facts).2 ↔
      (facts.argus_socket_isfile = false ∧ action = .run ∧
        q = ("apriltag", apriltag_run_warning)) ∨
      (facts.nvidia_lib_isdir = false ∧ action = .build ∧
        q = ("apriltag", apriltag_build_warning)) := by
  unfold apriltag_service
  split_ifs with h1 h2 <;> simp_all

theorem mem_pcm_skips {action : Action} {localBuild : Bool} {facts : HostFacts}
    {q : String × String} :
    q ∈ (pcm_service action localBuild facts).2 ↔
      facts.pcc_serial_exists = false ∧ action = .run ∧ q = ("pcm", pcm_warning) := by
  unfold pcm_service
  split_ifs with h <;> simp_all

theorem mem_sandbox_skips {facts : HostFacts} {q : String × String} :
    q ∈ (sandbox_service facts).2 ↔
      facts.sandbox_dir_isdir = false ∧ q = ("sandbox", sandbox_warning) := by
  unfold sandbox_service
  split_ifs with h <;> simp_all

theorem mem_status_skips {action : Action} {localBuild : Bool} {facts : HostFacts}
    {q : String × String} :
    q ∈ (status_service action localBuild facts).2 ↔
      (facts.nvpmodel_conf_isfile = false ∨ facts.nvpmodel_source = none) ∧
        action = .run ∧ q = ("status", status_warning) := by
  unfold status_service
  split_ifs with h <;> simp_all

/-- Exactly which entries `base_services` holds, and under which host
conditions. -/
theorem mem_base_services {action : Action} {modules : List String} {localBuild : Bool}
    {facts : HostFacts} {p : String × Service} :
    p ∈ base_services action modules localBuild facts ↔
      p = ("mqtt", mqtt_data localBuild facts) ∨
      (¬("simulator" ∉ modules ∧ facts.fcc_serial_exists = false ∧ action = .run) ∧
        p = ("mavp2p", mavp2p_data (decide ("simulator" ∈ modules)) localBuild facts)) ∨
      ("apriltag" ∈ modules ∧ ¬(facts.argus_socket_isfile = false ∧ action = .run) ∧
        ¬(facts.nvidia_lib_isdir = false ∧ action = .build) ∧
        p = ("apriltag", apriltag_data facts)) ∨
      ("fcm" ∈ modules ∧ p = ("fcm", fcm_data localBuild facts)) ∨
      ("fusion" ∈ modules ∧ p = ("fusion", fusion_data localBuild facts)) ∨
      ("pcm" ∈ modules ∧ ¬(facts.pcc_serial_exists = false ∧ action = .run) ∧
        p = ("pcm", pcm_data localBuild facts)) ∨
      ("sandbox" ∈ modules ∧ facts.sandbox_dir_isdir = true ∧
        p = ("sandbox", sandbox_data facts)) ∨
      ("status" ∈ modules ∧
        ¬((facts.nvpmodel_conf_isfile = false ∨ facts.nvpmodel_source = none) ∧
          action = .run) ∧
        p = ("status", status_data localBuild facts)) ∨
      ("thermal" ∈ modules ∧ p = ("thermal", thermal_data localBuild facts)) ∨
      ("vio" ∈ modules ∧ p = ("vio", vio_data localBuild facts)) := by
  simp only [base_services, List.mem_append, mem_if_nil, mem_mqtt_entries,
    mem_mavp2p_entries, mem_apriltag_entries, mem_fcm_entries, mem_fusion_entries,
    mem_pcm_entries, mem_sandbox_entries, mem_status_entries, mem_thermal_entries,
    mem_vio_entries, decide_eq_false_iff_not]
  simp only [or_assoc]

/-- Exactly which skip records `base_skips` holds, and under which host
conditions. -/
theorem mem_base_skips {action : Action} {modules : List String} {localBuild : Bool}
    {facts : HostFacts} {q : String × String} :
    q ∈ base_skips action modules localBuild facts ↔
      ("simulator" ∉ modules ∧ facts.fcc_serial_exists = false ∧ action = .run ∧
        q = ("mavp2p", mavp2p_warning)) ∨
      ("apriltag" ∈ modules ∧ facts.argus_socket_isfile = false ∧ action = .run ∧
        q = ("apriltag", apriltag_run_warning)) ∨
      ("apriltag" ∈ modules ∧ facts.nvidia_lib_isdir = false ∧ action = .build ∧
        q = ("apriltag", apriltag_build_warning)) ∨
      ("pcm" ∈ modules ∧ facts.pcc_serial_exists = false ∧ action = .run ∧
        q = ("pcm", pcm_warning)) ∨
      ("sandbox" ∈ modules ∧ facts.sandbox_dir_isdir = false ∧
        q = ("sandbox", sandbox_warning)) ∨
      ("status" ∈ modules ∧
        (facts.nvpmodel_conf_isfile = false ∨ facts.nvpmodel_source = none) ∧
        action = .run ∧ q = ("status", status_warning)) := by
  simp only [base_skips, List.mem_append, mem_if_nil, mqtt_no_skips, mem_mavp2p_skips,
    mem_apriltag_skips, mem_pcm_skips, mem_sandbox_skips, mem_status_skips,
    fcm_service, fusion_service, thermal_service, vio_service,
    List.not_mem_nil, decide_eq_false_iff_not]
  simp only [and_false, false_or, or_false, and_or_left, or_assoc]

theorem mem_fst_iff {β : Type} {l : List (String × β)} {x : String} :
    x ∈ l.map Prod.fst ↔ ∃ sv, (x, sv) ∈ l := by
  constructor
  · intro h
    obtain ⟨⟨n, sv⟩, hp, rfl⟩ := List.mem_map.mp h
    exact ⟨sv, hp⟩
  · rintro ⟨sv, hp⟩
    exact List.mem_map.mpr ⟨(x, sv), hp, rfl⟩

/-- Exactly which service names appear in `base_services`, and when. -/
theorem mem_base_fst {a : Action} {m : List String} {l : Bool} {f : HostFacts}
    {x : String} :
    x ∈ (base_services a m l f).map Prod.fst ↔
      x = "mqtt" ∨
      (¬("simulator" ∉ m ∧ f.fcc_serial_exists = false ∧ a = .run) ∧ x = "mavp2p") ∨
      ("apriltag" ∈ m ∧ ¬(f.argus_socket_isfile = false ∧ a = .run) ∧
        ¬(f.nvidia_lib_isdir = false ∧ a = .build) ∧ x = "apriltag") ∨
      ("fcm" ∈ m ∧ x = "fcm") ∨
      ("fusion" ∈ m ∧ x = "fusion") ∨
      ("pcm" ∈ m ∧ ¬(f.pcc_serial_exists = false ∧ a = .run) ∧ x = "pcm") ∨
      ("sandbox" ∈ m ∧ f.sandbox_dir_isdir = true ∧ x = "sandbox") ∨
      ("status" ∈ m ∧
        ¬((f.nvpmodel_conf_isfile = false ∨ f.nvpmodel_source = none) ∧ a = .run) ∧
        x = "status") ∨
      ("thermal" ∈ m ∧ x = "thermal") ∨
      ("vio" ∈ m ∧ x = "vio") := by
  rw [mem_fst_iff]
  simp only [mem_base_services, Prod.mk.injEq]
  simp only [exists_or, exists_and_left, exists_eq, exists_eq', and_true]

/-- Inversion of `prepare_compose_file` on a successful result. -/
theorem prepare_ok {action modules localBuild facts s w}
    (h : prepare_compose_file action modules localBuild facts = .ok (s, w)) :
    w = base_skips action modules localBuild facts ∧
    (("simulator" ∉ modules ∧ s = base_services action modules localBuild facts) ∨
      (∃ svc, "simulator" ∈ modules ∧ simulator_service localBuild facts = .ok svc ∧
        s = base_services action modules localBuild facts ++ [("simulator", svc)])) := by
  unfold prepare_compose_file at h
  split at h
  · rename_i hsim
    split at h
    · rename_i svc hsvc
      simp only [Except.ok.injEq, Prod.mk.injEq] at h
      exact ⟨h.2.symm, .inr ⟨svc, hsim, hsvc, h.1.symm⟩⟩
    · simp at h
  · rename_i hsim
    simp only [Except.ok.injEq, Prod.mk.injEq] at h
    exact ⟨h.2.symm, .inl ⟨hsim, h.1.symm⟩⟩

/-- What a successful `simulator_service` descriptor looks like. -/
theorem simulator_service_ok {localBuild : Bool} {facts : HostFacts} {svc : Service}
    (h : simulator_service localBuild facts = .ok svc) :
    svc.depends_on = [] ∧
    svc.build = (if localBuild = true then some (MODULES_DIR facts ++ "/simulator")
      else none) ∧
    svc.image = (if localBuild = true then none
      else some (IMAGE_BASE ++ "simulator:latest")) ∧
    svc.environment.map Prod.fst = ["DISPLAY", "WAYLAND_DISPLAY", "XDG_RUNTIME_DIR",
      "PULSE_SERVER", "PX4_HOME_LAT", "PX4_HOME_LON", "PX4_HOME_ALT", "DOCKER_HOST"] := by
  obtain ⟨td, ar, nv, fcc, pcc, sb, nc, ns, posix, eD, eW, eX, eP, ip⟩ := facts
  unfold simulator_service at h
  split at h
  · simp at h
  · cases eD <;> cases eW <;> cases eX <;> cases eP <;> simp_all
    subst h
    simp

end AVR

namespace AVR

/-! ### Claims -/

/-- C1: for every action and requested module set, mqtt is present in
the resulting topology, and mavp2p is present except exactly when the
action is `run`, `simulator` was not requested, and the FCC serial
device does not exist. -/
theorem C1_broker_relay_presence {action : Action} {modules : List String}
    {localBuild : Bool} {facts : HostFacts} {s : List (String × Service)}
    {w : List (String × String)}
    (h : prepare_compose_file action modules localBuild facts = .ok (s, w)) :
    "mqtt" ∈ s.map Prod.fst ∧
    ("mavp2p" ∈ s.map Prod.fst ↔
      ¬(action = .run ∧ "simulator" ∉ modules ∧ facts.fcc_serial_exists = false)) := by
  obtain ⟨-, hcase⟩ := prepare_ok h
  rcases hcase with ⟨hsim, rfl⟩ | ⟨svc, hsim, hsvc, rfl⟩
  · refine ⟨mem_base_fst.mpr (Or.inl rfl), ?_⟩
    rw [mem_base_fst]
    simp only [String.reduceEq, and_true, and_false, false_or, or_false, false_and,
      true_and]
    tauto
  · refine ⟨?_, ?_⟩
    · simp only [List.map_append, List.mem_append]
      exact Or.inl (mem_base_fst.mpr (Or.inl rfl))
    · constructor
      · intro _ hc
        exact hc.2.1 hsim
      · intro _
        simp only [List.map_append, List.mem_append]
        exact Or.inl (mem_base_fst.mpr (Or.inr (Or.inl ⟨fun hb => hb.1 hsim, rfl⟩)))

/-- Witness for C1 at a concrete input: action `run`, empty request, a
bare host (no FCC device): mqtt is present and mavp2p is absent. -/
theorem C1_broker_relay_presence_witness :
    "mqtt" ∈ (base_services .run [] false factsBare).map Prod.fst ∧
    ("mavp2p" ∈ (base_services .run [] false factsBare).map Prod.fst ↔
      ¬(Action.run = Action.run ∧ "simulator" ∉ ([] : List String) ∧
        factsBare.fcc_serial_exists = false)) :=
  C1_broker_relay_presence (s := base_services .run [] false factsBare)
    (w := base_skips .run [] false factsBare) rfl

/-- C7: when `simulator` is requested, the mavp2p descriptor gains the
`udps:0.0.0.0:14540` endpoint and the `14540:14540/udp` published port,
has no serial endpoint in its command and no device mount, and is
included under action `run` regardless of the FCC serial device. -/
theorem C7_simulator_mavp2p {modules : List String} {localBuild : Bool}
    {facts : HostFacts} {s : List (String × Service)} {w : List (String × String)}
    (hsim : "simulator" ∈ modules)
    (h : prepare_compose_file .run modules localBuild facts = .ok (s, w)) :
    "mavp2p" ∈ s.map Prod.fst ∧
    ∀ p ∈ s, p.1 = "mavp2p" →
      p.2.command =
        some "tcps:0.0.0.0:5760 udpc:fcm:14541 udpc:fcm:14542 udps:0.0.0.0:14540" ∧
      p.2.ports = ["5760:5760/tcp", "14540:14540/udp"] ∧
      p.2.devices = [] := by
  obtain ⟨-, hcase⟩ := prepare_ok h
  rcases hcase with ⟨hsim', -⟩ | ⟨svc, -, hsvc, rfl⟩
  · exact absurd hsim hsim'
  refine ⟨?_, ?_⟩
  · simp only [List.map_append, List.mem_append]
    exact Or.inl (mem_base_fst.mpr (Or.inr (Or.inl ⟨fun hb => hb.1 hsim, rfl⟩)))
  · intro p hp hname
    rcases List.mem_append.mp hp with hp | hp
    · rcases mem_base_services.mp hp with h1 | ⟨-, h1⟩ | ⟨-, -, -, h1⟩ | ⟨-, h1⟩ |
        ⟨-, h1⟩ | ⟨-, -, h1⟩ | ⟨-, -, h1⟩ | ⟨-, -, h1⟩ | ⟨-, h1⟩ | ⟨-, h1⟩ <;>
        subst h1 <;> try simp_all
      exact ⟨rfl, rfl, rfl⟩
    · simp only [List.mem_singleton] at hp
      subst hp
      simp at hname

/-- Witness for C7 at a concrete input: `run` with `simulator` requested
on a full host — mavp2p is present in the topology. -/
theorem C7_simulator_mavp2p_witness :
    (prepare_compose_file .run ["simulator"] false factsFull).map
      (fun sw => decide ("mavp2p" ∈ sw.1.map Prod.fst)) = .ok true := by
  cases hp : prepare_compose_file .run ["simulator"] false factsFull with
  | error e => exact absurd hp (by simp [prepare_compose_file, simulator_service, factsFull])
  | ok sw =>
    have hmem := (C7_simulator_mavp2p (by simp) hp).1
    simp [Except.map, hmem]

/-- C8: after the fixed `--project-name avr --file <manifest>` prefix,
the verb is `build` / `pull` / `up --remove-orphans --force-recreate` /
`down --remove-orphans --volumes` for `build` / `pull` / `run` / `stop`
respectively; the requested module names are appended for `build`,
`pull` and `run`, and not for `stop`. -/
theorem C8_command_construction (modules : List String) (facts : HostFacts) :
    main_cmd .build modules facts =
      ["--project-name", DOCKER_PROJECT_NAME, "--file", compose_file facts, "build"] ++
        modules ∧
    main_cmd .pull modules facts =
      ["--project-name", DOCKER_PROJECT_NAME, "--file", compose_file facts, "pull"] ++
        modules ∧
    main_cmd .run modules facts =
      ["--project-name", DOCKER_PROJECT_NAME, "--file", compose_file facts,
        "up", "--remove-orphans", "--force-recreate"] ++ modules ∧
    main_cmd .stop modules facts =
      ["--project-name", DOCKER_PROJECT_NAME, "--file", compose_file facts,
        "down", "--remove-orphans", "--volumes"] := by
  refine ⟨?_, ?_, ?_, ?_⟩ <;> simp [main_cmd]

/-- Splitting a topology entry into a base entry or the simulator entry. -/
theorem prepare_ok_entry {action : Action} {modules : List String} {localBuild : Bool}
    {facts : HostFacts} {s : List (String × Service)} {w : List (String × String)}
    {p : String × Service}
    (h : prepare_compose_file action modules localBuild facts = .ok (s, w))
    (hp : p ∈ s) :
    p ∈ base_services action modules localBuild facts ∨
    ∃ svc, simulator_service localBuild facts = .ok svc ∧ p = ("simulator", svc) := by
  obtain ⟨-, hcase⟩ := prepare_ok h
  rcases hcase with ⟨-, h1⟩ | ⟨svc, -, hsvc, h1⟩
  · subst h1
    exact Or.inl hp
  · subst h1
    rcases List.mem_append.mp hp with h2 | h2
    · exact Or.inl h2
    · exact Or.inr ⟨svc, hsvc, List.mem_singleton.mp h2⟩

/-- A name in a produced topology is either `simulator` or a base name. -/
theorem prepare_ok_names {a : Action} {m : List String} {l : Bool} {f : HostFacts}
    {s : List (String × Service)} {w : List (String × String)} {x : String}
    (h : prepare_compose_file a m l f = .ok (s, w)) (hx : x ∈ s.map Prod.fst) :
    x = "simulator" ∨ x ∈ (base_services a m l f).map Prod.fst := by
  obtain ⟨-, hcase⟩ := prepare_ok h
  rcases hcase with ⟨-, rfl⟩ | ⟨svc, -, -, rfl⟩
  · exact Or.inr hx
  · simp only [List.map_append, List.mem_append] at hx
    rcases hx with hx | hx
    · exact Or.inr hx
    · simp at hx
      exact Or.inl hx

/-- Every base name is a name of the produced topology. -/
theorem prepare_ok_base_names {a : Action} {m : List String} {l : Bool} {f : HostFacts}
    {s : List (String × Service)} {w : List (String × String)} {x : String}
    (h : prepare_compose_file a m l f = .ok (s, w))
    (hx : x ∈ (base_services a m l f).map Prod.fst) :
    x ∈ s.map Prod.fst := by
  obtain ⟨-, hcase⟩ := prepare_ok h
  rcases hcase with ⟨-, rfl⟩ | ⟨svc, -, -, rfl⟩
  · exact hx
  · simp only [List.map_append, List.mem_append]
    exact Or.inl hx

/-- Source fields of every base entry: exactly one of build/image, all
build when `localBuild`, and apriltag/sandbox always build. -/
theorem base_entry_source {a : Action} {m : List String} {l : Bool} {f : HostFacts} :
    ∀ p ∈ base_services a m l f,
      ((p.2.build.isSome ∧ p.2.image = none) ∨ (p.2.image.isSome ∧ p.2.build = none)) ∧
      (l = true → p.2.build.isSome ∧ p.2.image = none) ∧
      (p.1 = "apriltag" ∨ p.1 = "sandbox" → p.2.build.isSome ∧ p.2.image = none) := by
  intro p hp
  rcases mem_base_services.mp hp with h1 | ⟨-, h1⟩ | ⟨-, -, -, h1⟩ | ⟨-, h1⟩ | ⟨-, h1⟩ |
    ⟨-, -, h1⟩ | ⟨-, -, h1⟩ | ⟨-, -, h1⟩ | ⟨-, h1⟩ | ⟨-, h1⟩ <;> subst h1 <;>
    cases l <;>
    simp [mqtt_data, mavp2p_data, apriltag_data, fcm_data, fusion_data, pcm_data,
      sandbox_data, status_data, thermal_data, vio_data]

/-- C4: every descriptor in every produced topology populates exactly
one source field (image XOR build); with `localBuild` every descriptor
uses a build path; apriltag and sandbox use a build path regardless. -/
theorem C4_source_exclusive {action : Action} {modules : List String} {localBuild : Bool}
    {facts : HostFacts} {s : List (String × Service)} {w : List (String × String)}
    (h : prepare_compose_file action modules localBuild facts = .ok (s, w)) :
    (∀ p ∈ s, (p.2.build.isSome ∧ p.2.image = none) ∨
      (p.2.image.isSome ∧ p.2.build = none)) ∧
    (localBuild = true → ∀ p ∈ s, p.2.build.isSome ∧ p.2.image = none) ∧
    (∀ p ∈ s, p.1 = "apriltag" ∨ p.1 = "sandbox" →
      p.2.build.isSome ∧ p.2.image = none) := by
  have key : ∀ p ∈ s,
      ((p.2.build.isSome ∧ p.2.image = none) ∨ (p.2.image.isSome ∧ p.2.build = none)) ∧
      (localBuild = true → p.2.build.isSome ∧ p.2.image = none) ∧
      (p.1 = "apriltag" ∨ p.1 = "sandbox" → p.2.build.isSome ∧ p.2.image = none) := by
    intro p hp
    rcases prepare_ok_entry h hp with hp' | ⟨svc, hsvc, rfl⟩
    · exact base_entry_source p hp'
    · obtain ⟨-, hb, hi, -⟩ := simulator_service_ok hsvc
      cases localBuild <;> simp_all
  exact ⟨fun p hp => (key p hp).1, fun hl p hp => (key p hp).2.1 hl,
    fun p hp => (key p hp).2.2⟩

/-- Witness for C4 at a concrete input: the mqtt descriptor of a
`stop`-materialized topology has an image and no build path. -/
theorem C4_source_exclusive_witness :
    ((mqtt_data false factsFull).build.isSome ∧ (mqtt_data false factsFull).image = none) ∨
    ((mqtt_data false factsFull).image.isSome ∧
      (mqtt_data false factsFull).build = none) :=
  (@C4_source_exclusive .stop [] false factsFull
    (base_services .stop [] false factsFull) (base_skips .stop [] false factsFull)
    rfl).1
    ("mqtt", mqtt_data false factsFull) (mem_base_services.mpr (Or.inl rfl))

/-- C5 counterexample: requesting `fusion` alone (action `stop`, so no
gating is involved) yields a topology whose fusion descriptor depends
on `vio`, yet no `vio` service is present — a dangling dependency that
is neither the broker nor the relay. -/
theorem C5_dangling_vio_counterexample :
    (prepare_compose_file .stop ["fusion"] false factsFull).map
      (fun sw => (sw.1.map Prod.fst, (sw.1.lookup "fusion").map Service.depends_on)) =
      .ok (["mqtt", "mavp2p", "fusion"], some ["mqtt", "vio"]) := rfl

/-- C5 amended: every dependency reference in every produced topology
resolves to a service of the same topology or is one of `mqtt`,
`mavp2p`, or `vio` — the fusion module's `vio` dependency dangles when
`vio` was not requested, so `vio` must join the permitted
exceptions. -/
theorem C5_deps_resolve_amended {action : Action} {modules : List String}
    {localBuild : Bool} {facts : HostFacts} {s : List (String × Service)}
    {w : List (String × String)}
    (h : prepare_compose_file action modules localBuild facts = .ok (s, w)) :
    ∀ p ∈ s, ∀ d ∈ p.2.depends_on,
      d ∈ s.map Prod.fst ∨ d = "mqtt" ∨ d = "mavp2p" ∨ d = "vio" := by
  intro p hp d hd
  right
  rcases prepare_ok_entry h hp with hp' | ⟨svc, hsvc, rfl⟩
  · rcases mem_base_services.mp hp' with h1 | ⟨-, h1⟩ | ⟨-, -, -, h1⟩ | ⟨-, h1⟩ |
      ⟨-, h1⟩ | ⟨-, -, h1⟩ | ⟨-, -, h1⟩ | ⟨-, -, h1⟩ | ⟨-, h1⟩ | ⟨-, h1⟩ <;>
      subst h1 <;>
      simp_all [mqtt_data, mavp2p_data, apriltag_data, fcm_data, fusion_data,
        pcm_data, sandbox_data, status_data, thermal_data, vio_data] <;>
      tauto
  · have := (simulator_service_ok hsvc).1
    simp_all

/-- Witness for C5 at a concrete input: the fusion descriptor's `vio`
dependency falls under the permitted exceptions. -/
theorem C5_deps_resolve_amended_witness :
    "vio" ∈ (base_services .stop ["fusion"] false factsFull).map Prod.fst ∨
    "vio" = "mqtt" ∨ "vio" = "mavp2p" ∨ "vio" = "vio" :=
  @C5_deps_resolve_amended .stop ["fusion"] false factsFull
    (base_services .stop ["fusion"] false factsFull)
    (base_skips .stop ["fusion"] false factsFull) rfl
    ("fusion", fusion_data false factsFull)
    (mem_base_services.mpr (Or.inr (Or.inr (Or.inr (Or.inr (Or.inl
      ⟨by simp, rfl⟩))))))
    "vio" (by simp [fusion_data])

/-- C6 counterexample: in the topology materialized for `stop` with no
requested modules, the mavp2p descriptor's environment holds only the
two mavlink ports — neither `MQTT_HOST` nor `MQTT_PORT`. -/
theorem C6_env_counterexample :
    (prepare_compose_file .stop [] false factsFull).map
      (fun sw => (sw.1.lookup "mavp2p").map (fun svc => svc.environment.map Prod.fst)) =
      .ok (some ["MAVLINK_UDP_1", "MAVLINK_UDP_2"]) := rfl

/-- C6 amended: every descriptor other than mqtt, mavp2p and simulator
carries both `MQTT_HOST` and `MQTT_PORT` in its environment; mqtt
carries `MQTT_PORT` but not `MQTT_HOST` (and mavp2p and simulator carry
neither, per the counterexample). -/
theorem C6_env_seeding_amended {action : Action} {modules : List String}
    {localBuild : Bool} {facts : HostFacts} {s : List (String × Service)}
    {w : List (String × String)}
    (h : prepare_compose_file action modules localBuild facts = .ok (s, w)) :
    (∀ p ∈ s, p.1 ≠ "mqtt" → p.1 ≠ "mavp2p" → p.1 ≠ "simulator" →
      "MQTT_HOST" ∈ p.2.environment.map Prod.fst ∧
      "MQTT_PORT" ∈ p.2.environment.map Prod.fst) ∧
    (∀ p ∈ s, p.1 = "mqtt" →
      "MQTT_PORT" ∈ p.2.environment.map Prod.fst ∧
      "MQTT_HOST" ∉ p.2.environment.map Prod.fst) := by
  constructor
  · intro p hp hn1 hn2 hn3
    rcases prepare_ok_entry h hp with hp' | ⟨svc, hsvc, rfl⟩
    · rcases mem_base_services.mp hp' with h1 | ⟨-, h1⟩ | ⟨-, -, -, h1⟩ | ⟨-, h1⟩ |
        ⟨-, h1⟩ | ⟨-, -, h1⟩ | ⟨-, -, h1⟩ | ⟨-, -, h1⟩ | ⟨-, h1⟩ | ⟨-, h1⟩ <;>
        subst h1 <;>
        simp_all [mqtt_data, mavp2p_data, apriltag_data, fcm_data, fusion_data,
          pcm_data, sandbox_data, status_data, thermal_data, vio_data]
    · simp at hn3
  · intro p hp hn
    rcases prepare_ok_entry h hp with hp' | ⟨svc, hsvc, rfl⟩
    · rcases mem_base_services.mp hp' with h1 | ⟨-, h1⟩ | ⟨-, -, -, h1⟩ | ⟨-, h1⟩ |
        ⟨-, h1⟩ | ⟨-, -, h1⟩ | ⟨-, -, h1⟩ | ⟨-, -, h1⟩ | ⟨-, h1⟩ | ⟨-, h1⟩ <;>
        subst h1 <;>
        simp_all [mqtt_data, mavp2p_data, apriltag_data, fcm_data, fusion_data,
          pcm_data, sandbox_data, status_data, thermal_data, vio_data]
    · simp at hn

/-- Witness for C6 at a concrete input: the fcm descriptor carries both
broker variables. -/
theorem C6_env_seeding_amended_witness :
    "MQTT_HOST" ∈ (fcm_data false factsFull).environment.map Prod.fst ∧
    "MQTT_PORT" ∈ (fcm_data false factsFull).environment.map Prod.fst :=
  (@C6_env_seeding_amended .stop ["fcm"] false factsFull
    (base_services .stop ["fcm"] false factsFull)
    (base_skips .stop ["fcm"] false factsFull) rfl).1
    ("fcm", fcm_data false factsFull)
    (mem_base_services.mpr (Or.inr (Or.inr (Or.inr (Or.inl ⟨by simp, rfl⟩)))))
    (by simp) (by simp) (by simp)

/-- C2 counterexample: the simulator module's host precondition (posix
platform) failing under action `run` does not produce a skip-with-
warning — materialization aborts the whole process with exit code 1. -/
theorem C2_simulator_abort_counterexample :
    prepare_compose_file .run ["simulator"] false factsWin =
      .error (.exitCode 1) := rfl

/-- C2 amended: for every requested module other than simulator whose
host precondition probe fails under `run` or `build`, materialization
does not abort: the module is omitted from the topology, recorded in
the skip list with a non-empty reason, never in both, and the remaining
topology is returned (simulator's platform precondition failing instead
aborts the process). -/
theorem C2_skip_policy_amended (a : Action) (m : List String) (l : Bool)
    (f : HostFacts) :
    ("simulator" ∉ m → ∃ s w, prepare_compose_file a m l f = .ok (s, w)) ∧
    (∀ s w, prepare_compose_file a m l f = .ok (s, w) →
      (∀ q ∈ w, q.2 ≠ "" ∧ q.1 ∉ s.map Prod.fst) ∧
      (a = .run → f.fcc_serial_exists = false → "simulator" ∉ m →
        "mavp2p" ∉ s.map Prod.fst ∧ "mavp2p" ∈ w.map Prod.fst) ∧
      ("apriltag" ∈ m → a = .run → f.argus_socket_isfile = false →
        "apriltag" ∉ s.map Prod.fst ∧ "apriltag" ∈ w.map Prod.fst) ∧
      ("apriltag" ∈ m → a = .build → f.nvidia_lib_isdir = false →
        "apriltag" ∉ s.map Prod.fst ∧ "apriltag" ∈ w.map Prod.fst) ∧
      ("pcm" ∈ m → a = .run → f.pcc_serial_exists = false →
        "pcm" ∉ s.map Prod.fst ∧ "pcm" ∈ w.map Prod.fst) ∧
      ("sandbox" ∈ m → f.sandbox_dir_isdir = false →
        "sandbox" ∉ s.map Prod.fst ∧ "sandbox" ∈ w.map Prod.fst) ∧
      ("status" ∈ m → a = .run →
        (f.nvpmodel_conf_isfile = false ∨ f.nvpmodel_source = none) →
        "status" ∉ s.map Prod.fst ∧ "status" ∈ w.map Prod.fst)) := by
  constructor
  · intro hsim
    unfold prepare_compose_file
    rw [if_neg hsim]
    exact ⟨_, _, rfl⟩
  intro s w h
  obtain ⟨hw, -⟩ := prepare_ok h
  subst hw
  have habs : ∀ x : String, x ≠ "simulator" →
      x ∉ (base_services a m l f).map Prod.fst → x ∉ s.map Prod.fst := by
    intro x hxs hxb hmem
    rcases prepare_ok_names h hmem with h1 | h1
    · exact hxs h1
    · exact hxb h1
  refine ⟨?_, ?_, ?_, ?_, ?_, ?_, ?_⟩
  · intro q hq
    rcases mem_base_skips.mp hq with ⟨hs1, hf1, ha1, rfl⟩ | ⟨hm1, hf1, ha1, rfl⟩ |
      ⟨hm1, hf1, ha1, rfl⟩ | ⟨hm1, hf1, ha1, rfl⟩ | ⟨hm1, hf1, rfl⟩ |
      ⟨hm1, hf1, ha1, rfl⟩
    · refine ⟨by decide, habs _ (by decide) ?_⟩
      rw [mem_base_fst]
      subst ha1
      simp [hs1, hf1]
    · refine ⟨by decide, habs _ (by decide) ?_⟩
      rw [mem_base_fst]
      subst ha1
      simp [hf1]
    · refine ⟨by decide, habs _ (by decide) ?_⟩
      rw [mem_base_fst]
      subst ha1
      simp [hf1]
    · refine ⟨by decide, habs _ (by decide) ?_⟩
      rw [mem_base_fst]
      subst ha1
      simp [hf1]
    · refine ⟨by decide, habs _ (by decide) ?_⟩
      rw [mem_base_fst]
      simp [hf1]
    · refine ⟨by decide, habs _ (by decide) ?_⟩
      rw [mem_base_fst]
      subst ha1
      rcases hf1 with hf1 | hf1 <;> simp [hf1]
  · intro ha hfcc hsim
    subst ha
    refine ⟨habs _ (by decide) (by rw [mem_base_fst]; simp [hsim, hfcc]), ?_⟩
    exact mem_fst_iff.mpr ⟨mavp2p_warning, mem_base_skips.mpr
      (Or.inl ⟨hsim, hfcc, rfl, rfl⟩)⟩
  · intro hm ha hargus
    subst ha
    refine ⟨habs _ (by decide) (by rw [mem_base_fst]; simp [hargus]), ?_⟩
    exact mem_fst_iff.mpr ⟨apriltag_run_warning, mem_base_skips.mpr
      (Or.inr (Or.inl ⟨hm, hargus, rfl, rfl⟩))⟩
  · intro hm ha hnv
    subst ha
    refine ⟨habs _ (by decide) (by rw [mem_base_fst]; simp [hnv]), ?_⟩
    exact mem_fst_iff.mpr ⟨apriltag_build_warning, mem_base_skips.mpr
      (Or.inr (Or.inr (Or.inl ⟨hm, hnv, rfl, rfl⟩)))⟩
  · intro hm ha hpcc
    subst ha
    refine ⟨habs _ (by decide) (by rw [mem_base_fst]; simp [hpcc]), ?_⟩
    exact mem_fst_iff.mpr ⟨pcm_warning, mem_base_skips.mpr
      (Or.inr (Or.inr (Or.inr (Or.inl ⟨hm, hpcc, rfl, rfl⟩))))⟩
  · intro hm hdir
    refine ⟨habs _ (by decide) (by rw [mem_base_fst]; simp [hdir]), ?_⟩
    exact mem_fst_iff.mpr ⟨sandbox_warning, mem_base_skips.mpr
      (Or.inr (Or.inr (Or.inr (Or.inr (Or.inl ⟨hm, hdir, rfl⟩)))))⟩
  · intro hm ha hnvp
    subst ha
    refine ⟨habs _ (by decide) ?_, ?_⟩
    · rw [mem_base_fst]
      rcases hnvp with hnvp | hnvp <;> simp [hnvp]
    · exact mem_fst_iff.mpr ⟨status_warning, mem_base_skips.mpr
        (Or.inr (Or.inr (Or.inr (Or.inr (Or.inr ⟨hm, hnvp, rfl, rfl⟩)))))⟩

/-- Witness for C2 at a concrete input: requesting `pcm` under `run` on
a bare host skips pcm with a warning, and pcm is absent from the
topology. -/
theorem C2_skip_policy_amended_witness :
    "pcm" ∉ (base_services .run ["pcm"] false factsBare).map Prod.fst ∧
    "pcm" ∈ (base_skips .run ["pcm"] false factsBare).map Prod.fst :=
  ((C2_skip_policy_amended .run ["pcm"] false factsBare).2
    (base_services .run ["pcm"] false factsBare)
    (base_skips .run ["pcm"] false factsBare) rfl).2.2.2.2.1
    (by simp) rfl rfl

/-- C3 counterexample: under action `stop`, the requested sandbox module
is still capability-gated — with the sandbox source directory missing it
is excluded from the topology. -/
theorem C3_stop_gating_counterexample :
    (prepare_compose_file .stop ["sandbox"] false
        { factsFull with sandbox_dir_isdir := false }).map
      (fun sw => sw.1.map Prod.fst) = .ok ["mqtt", "mavp2p"] := rfl

/-- C3 amended: for `stop` and `pull` no capability gating is applied to
apriltag, fcm, fusion, pcm, status, thermal and vio — each is included
whenever requested, regardless of host facts; sandbox remains gated by
its source directory under every action, and simulator (whose non-posix
platform check aborts rather than skips) is included whenever
materialization succeeds. -/
theorem C3_stop_pull_no_gating_amended {a : Action} (ha : a = .pull ∨ a = .stop)
    {m : List String} {l : Bool} {f : HostFacts} {s : List (String × Service)}
    {w : List (String × String)}
    (h : prepare_compose_file a m l f = .ok (s, w)) :
    (∀ x ∈ (["apriltag", "fcm", "fusion", "pcm", "status", "thermal", "vio"] :
        List String), x ∈ m → x ∈ s.map Prod.fst) ∧
    ("sandbox" ∈ m → ("sandbox" ∈ s.map Prod.fst ↔ f.sandbox_dir_isdir = true)) ∧
    ("simulator" ∈ m → "simulator" ∈ s.map Prod.fst) := by
  have hnr : a ≠ .run := by rcases ha with rfl | rfl <;> simp
  have hnb : a ≠ .build := by rcases ha with rfl | rfl <;> simp
  refine ⟨?_, ?_, ?_⟩
  · intro x hx hm
    simp only [List.mem_cons, List.not_mem_nil, or_false] at hx
    rcases hx with rfl | rfl | rfl | rfl | rfl | rfl | rfl
    · exact prepare_ok_base_names h (mem_base_fst.mpr (Or.inr (Or.inr (Or.inl
        ⟨hm, fun hc => hnr hc.2, fun hc => hnb hc.2, rfl⟩))))
    · exact prepare_ok_base_names h (mem_base_fst.mpr (Or.inr (Or.inr (Or.inr
        (Or.inl ⟨hm, rfl⟩)))))
    · exact prepare_ok_base_names h (mem_base_fst.mpr (Or.inr (Or.inr (Or.inr
        (Or.inr (Or.inl ⟨hm, rfl⟩))))))
    · exact prepare_ok_base_names h (mem_base_fst.mpr (Or.inr (Or.inr (Or.inr
        (Or.inr (Or.inr (Or.inl ⟨hm, fun hc => hnr hc.2, rfl⟩)))))))
    · exact prepare_ok_base_names h (mem_base_fst.mpr (Or.inr (Or.inr (Or.inr
        (Or.inr (Or.inr (Or.inr (Or.inr (Or.inl
          ⟨hm, fun hc => hnr hc.2, rfl⟩)))))))))
    · exact prepare_ok_base_names h (mem_base_fst.mpr (Or.inr (Or.inr (Or.inr
        (Or.inr (Or.inr (Or.inr (Or.inr (Or.inr (Or.inl ⟨hm, rfl⟩))))))))))
    · exact prepare_ok_base_names h (mem_base_fst.mpr (Or.inr (Or.inr (Or.inr
        (Or.inr (Or.inr (Or.inr (Or.inr (Or.inr (Or.inr ⟨hm, rfl⟩))))))))))
  · intro hm
    constructor
    · intro hmem
      rcases prepare_ok_names h hmem with h1 | h1
      · exact absurd h1 (by decide)
      · rcases mem_base_fst.mp h1 with hc | ⟨-, hc⟩ | ⟨-, -, -, hc⟩ | ⟨-, hc⟩ |
          ⟨-, hc⟩ | ⟨-, -, hc⟩ | ⟨-, hd, -⟩ | ⟨-, -, hc⟩ | ⟨-, hc⟩ | ⟨-, hc⟩ <;>
          simp_all
    · intro hdir
      exact prepare_ok_base_names h (mem_base_fst.mpr (Or.inr (Or.inr (Or.inr
        (Or.inr (Or.inr (Or.inr (Or.inl ⟨hm, hdir, rfl⟩))))))))
  · intro hm
    obtain ⟨-, hcase⟩ := prepare_ok h
    rcases hcase with ⟨hns, -⟩ | ⟨svc, -, -, rfl⟩
    · exact absurd hm hns
    · simp [List.map_append]

/-- Witness for C3 at a concrete input: `pull` with `pcm` requested on a
bare host (no PCC device) still includes pcm. -/
theorem C3_stop_pull_no_gating_amended_witness :
    "pcm" ∈ (base_services .pull ["pcm"] false factsBare).map Prod.fst :=
  (@C3_stop_pull_no_gating_amended .pull (Or.inl rfl) ["pcm"] false factsBare
    (base_services .pull ["pcm"] false factsBare)
    (base_skips .pull ["pcm"] false factsBare) rfl).1
    "pcm" (by simp) (by simp)

/-- C9 counterexample: when spawning the elevated re-execution raises
`PermissionError`, `check_sudo` exits with code 0 — not non-zero. -/
theorem C9_permission_exit_zero_counterexample :
    check_sudo false 1000 .permissionError = some 0 := rfl

/-- C9 amended: when the process must self-elevate (posix, non-root),
it exits 1 on interruption and propagates sudo's return code (hence
non-zero when sudo reports denial), but exits 0 when spawning sudo
raises `PermissionError`. -/
theorem C9_elevation_exit_codes_amended (euid : Nat) (h : euid ≠ 0) :
    check_sudo false euid .keyboardInterrupt = some 1 ∧
    (∀ rc : Int, check_sudo false euid (.completed rc) = some rc) ∧
    check_sudo false euid .permissionError = some 0 := by
  unfold check_sudo
  simp [h]

/-- Witness for C9 at a concrete input. -/
theorem C9_elevation_exit_codes_amended_witness :
    check_sudo false 1000 .keyboardInterrupt = some 1 :=
  (C9_elevation_exit_codes_amended 1000 (by decide)).1

/-- C10: a requested name outside the known module set changes nothing
in materialization — same topology, same skip records, no warning — the
unknown name never appears as a service, yet for `build`, `pull` and
`run` it is still passed verbatim to the orchestration command line. -/
theorem C10_unknown_module (u : String) (hu : u ∉ known_modules) (a : Action)
    (m : List String) (l : Bool) (f : HostFacts) :
    prepare_compose_file a (m ++ [u]) l f = prepare_compose_file a m l f ∧
    (∀ s w, prepare_compose_file a (m ++ [u]) l f = .ok (s, w) →
      u ∉ s.map Prod.fst) ∧
    ((a = .build ∨ a = .pull ∨ a = .run) → u ∈ main_cmd a (m ++ [u]) f) := by
  simp only [known_modules, List.mem_cons, List.not_mem_nil, or_false, not_or] at hu
  obtain ⟨h1, h2, h3, h4, h5, h6, h7, h8, h9, h10, h11⟩ := hu
  refine ⟨?_, ?_, ?_⟩
  · unfold prepare_compose_file base_services base_skips
    simp only [mem_append_single_iff (Ne.symm h11), mem_append_single_iff (Ne.symm h3),
      mem_append_single_iff (Ne.symm h4), mem_append_single_iff (Ne.symm h5),
      mem_append_single_iff (Ne.symm h6), mem_append_single_iff (Ne.symm h7),
      mem_append_single_iff (Ne.symm h8), mem_append_single_iff (Ne.symm h9),
      mem_append_single_iff (Ne.symm h10)]
  · intro s w h hmem
    rcases prepare_ok_names h hmem with hc | hc
    · exact h11 hc
    · rcases mem_base_fst.mp hc with hc | ⟨-, hc⟩ | ⟨-, -, -, hc⟩ | ⟨-, hc⟩ |
        ⟨-, hc⟩ | ⟨-, -, hc⟩ | ⟨-, -, hc⟩ | ⟨-, -, hc⟩ | ⟨-, hc⟩ | ⟨-, hc⟩ <;>
        simp_all
  · rintro (rfl | rfl | rfl) <;> simp [main_cmd]

/-- Witness for C10 at a concrete input: adding the unknown name
`bogus` leaves materialization unchanged, and `bogus` is still passed
on the `build` command line. -/
theorem C10_unknown_module_witness :
    prepare_compose_file .build (["fcm"] ++ ["bogus"]) false factsFull =
      prepare_compose_file .build ["fcm"] false factsFull ∧
    "bogus" ∈ main_cmd .build (["fcm"] ++ ["bogus"]) factsFull := by
  have h := C10_unknown_module "bogus" (by simp [known_modules]) .build ["fcm"]
    false factsFull
  exact ⟨h.1, h.2.2 (Or.inl rfl)⟩

end AVR
